import Mathlib

/-!
# Verification of `bank_statement_utilities.py`

A shallow embedding of the bank-statement consolidation pipeline:
filename parsing (`get_file_info`), fiscal-year continuity checking
(`are_files_continuous`), statement enrichment (`enrich_statements`),
merging (`merge_statements`), opening-balance synthesis
(`enrich_merged_statement`) and consolidation (`consolidate_statements`),
together with an abstract model of the file loaders
(`load_file_to_dataframe`, `read_as_excel_file`, `read_as_html_file`,
`read_as_text_file`, `find_data_start`).

Modelling conventions:
* Python `Decimal` / float monetary values are modelled as exact rationals `ℚ`.
* Dates are modelled as `Nat`; both `datetime` values and the `%Y-%m-%d`
  date strings produced by `enrich_merged_statement` are totally ordered
  chronologically, which is all the code's sorts depend on.
* Nullable DataFrame cells (`None`, or a column that is never assigned)
  are modelled as `Option String`.
* `pandas.sort_values(by=["date", "credit"], ascending=[True, False])` is
  modelled as a merge sort with the corresponding lexicographic key.
* pandas DataFrames in the loader model are an abstract type `α`; the
  outcomes of the external library calls (`read_excel`, `read_csv`,
  BeautifulSoup parsing) are fields of a `FileModel` record, while all
  control flow of the repository's own loader functions is modelled
  faithfully.
-/

/-! ## Data model -/

/-- A canonical transaction row as produced by the bank adapters, before
`enrich_statements` assigns the `bank` and `account holder` columns:
columns `date`, `description`, `credit`, `debit`, `balance`. -/
structure RawTxn where
  date : Nat
  description : String
  credit : ℚ
  debit : ℚ
  balance : ℚ
deriving Repr, DecidableEq

/-- A transaction row after `enrich_statements`: the generic columns plus
`bank` and `account_holder`, either of which may be null (`none`) when the
bank code is unsupported or the holder code is absent from the
caller-supplied mapping. -/
structure Row where
  date : Nat
  description : String
  credit : ℚ
  debit : ℚ
  balance : ℚ
  bank : Option String
  account_holder : Option String
deriving Repr, DecidableEq

/-- A transaction row after `enrich_merged_statement`: the `balance`
column has been dropped and debits have been negated. -/
structure Txn where
  date : Nat
  description : String
  credit : ℚ
  debit : ℚ
  bank : Option String
  account_holder : Option String
deriving Repr, DecidableEq

/-- A row of the consolidated ledger produced by `consolidate_statements`,
with the recomputed running `balance`. -/
structure LRow where
  date : Nat
  description : String
  credit : ℚ
  debit : ℚ
  balance : ℚ
  bank : Option String
  account_holder : Option String
deriving Repr, DecidableEq

/-- Forget the recomputed balance of a consolidated row, recovering the
post-synthesis transaction it came from. -/
def LRow.toTxn (r : LRow) : Txn :=
  { date := r.date, description := r.description, credit := r.credit,
    debit := r.debit, bank := r.bank, account_holder := r.account_holder }

/-! ## Sorting

Both `merge_statements` and `consolidate_statements` call
`sort_values(by=["date", "credit"], ascending=[True, False])`. -/

/-- The Boolean comparison behind
`sort_values(by=["date", "credit"], ascending=[True, False])`:
date ascending, then credit descending. -/
def stmtLe {α : Type} (date : α → Nat) (credit : α → ℚ) (a b : α) : Bool :=
  date a < date b || (date a == date b && credit b ≤ credit a)

/-- Model of `DataFrame.sort_values(by=["date", "credit"],
ascending=[True, False])`. -/
def sort_values {α : Type} (date : α → Nat) (credit : α → ℚ) (l : List α) : List α :=
  l.mergeSort (stmtLe date credit)

/-! ## `consolidate_statements` (lines 101–123) -/

/-- The argument of the final `reindex(columns=...)` in
`consolidate_statements`. -/
def consolidatedColumns : List String :=
  ["date", "description", "credit", "debit", "balance", "bank", "account_holder"]

/-- The `assign(balance=... cumsum())` step: running cumulative sum of
`credit + debit`, threading the accumulator down the sorted rows. -/
def runningBalance (acc : ℚ) : List Txn → List LRow
  | [] => []
  | t :: ts =>
    let b := acc + t.credit + t.debit
    { date := t.date, description := t.description, credit := t.credit,
      debit := t.debit, balance := b, bank := t.bank,
      account_holder := t.account_holder } :: runningBalance b ts

/-- Model of `consolidate_statements`: concatenate the tables of the
dictionary (in insertion order), sort by (date ascending, credit
descending), recompute `balance` as the cumulative sum of
`credit + debit`, and reindex to `consolidatedColumns`. -/
def consolidate_statements (bank_statements : List (List Txn)) : List LRow :=
  runningBalance 0 (sort_values Txn.date Txn.credit bank_statements.flatten)

/-! ## `enrich_merged_statement` (lines 232–274) -/

/-- The synthetic opening transaction built from the first row of a merged
statement (lines 255–264): `balance += debit - credit`, then the new
balance is assigned to `credit` (when it is ≥ 0) or to `debit` (when it is
negative), with description `"Balance brought forward"`. -/
def openingTransaction (r0 : Row) : Row :=
  let ob := r0.balance + r0.debit - r0.credit
  { r0 with
    description := "Balance brought forward",
    credit := if 0 ≤ ob then ob else 0,
    debit := if 0 ≤ ob then 0 else ob,
    balance := ob }

/-- The `assign(debit=lambda x: (- x["debit"]) ...)` step applied to every
row (including the prepended synthetic one), together with dropping the
`balance` column and the reindex to
`{date, description, credit, debit, bank, account_holder}` (lines 266–271).
The `%Y-%m-%d` date reformatting keeps the chronological order of the
`date` key and is absorbed by the `Nat` date model. -/
def signConvert (r : Row) : Txn :=
  { date := r.date, description := r.description, credit := r.credit,
    debit := -r.debit, bank := r.bank, account_holder := r.account_holder }

/-- Per-table body of the `enrich_merged_statement` loop. `statement.iloc[0]`
on an empty table raises in Python; this is modelled as `none`. -/
def enrich_merged_statement_table (statement : List Row) : Option (List Txn) :=
  match statement with
  | [] => none
  | r0 :: _ => some ((openingTransaction r0 :: statement).map signConvert)

/-- Model of `enrich_merged_statement` over the dictionary of merged
statements (keys preserved, each table transformed independently). -/
def enrich_merged_statement (bank_statements : List (String × List Row)) :
    Option (List (String × List Txn)) :=
  match bank_statements with
  | [] => some []
  | (k, t) :: rest =>
    match enrich_merged_statement_table t, enrich_merged_statement rest with
    | some t', some rest' => some ((k, t') :: rest')
    | _, _ => none

/-! ## `get_file_info` (lines 388–421)

The two patterns `([^_]+)_([^_]+)_([^_]+)\.(\w+)` and
`([^_]+)_([^_]+)_([^_]+)_([^_]+)\.(\w+)` are tried in order with
`re.match` (match at the start of the string, greedy with backtracking;
the end of the string is not anchored). -/

/-- Python's `\w` on the ASCII alphabet: letters, digits and the
underscore. -/
def wordChar (c : Char) : Bool := c.isAlphanum || c == '_'

/-- Matching `([^_]+)_` at the head of the input: because the group cannot
contain `_` and is followed by a literal `_`, the only way the regex can
proceed is with the maximal run of non-underscore characters, which must
be nonempty and followed by `_`. -/
def splitField (l : List Char) : Option (List Char × List Char) :=
  let f := l.takeWhile (fun c => c != '_')
  match l.drop f.length with
  | '_' :: rest => if f.isEmpty then none else some (f, rest)
  | _ => none

/-- Backtracking search for `([^_]+)\.(\w+)` at the head of `l`: try the
candidate third-group length `j` from the maximal non-underscore run
downwards; a candidate succeeds when the character at index `j` is `.` and
at least one word character follows, in which case `\w+` greedily takes
the maximal word-character run. -/
def p34go (l : List Char) : Nat → Option (List Char × List Char)
  | 0 => none
  | j + 1 =>
    match l[j + 1]? with
    | some c =>
      if c = '.' then
        let g4 := (l.drop (j + 2)).takeWhile wordChar
        if g4.isEmpty then p34go l j else some (l.take (j + 1), g4)
      else p34go l j
    | none => p34go l j

/-- Matching `([^_]+)\.(\w+)` at the head of `l`. -/
def p34 (l : List Char) : Option (List Char × List Char) :=
  p34go l (l.takeWhile (fun c => c != '_')).length

/-- `re.match(r"([^_]+)_([^_]+)_([^_]+)\.(\w+)", ...)`. -/
def matchP1 (l : List Char) : Option (String × String × String × String) :=
  match splitField l with
  | none => none
  | some (g1, r1) =>
    match splitField r1 with
    | none => none
    | some (g2, r2) =>
      match p34 r2 with
      | none => none
      | some (g3, g4) => some (g1.asString, g2.asString, g3.asString, g4.asString)

/-- `re.match(r"([^_]+)_([^_]+)_([^_]+)_([^_]+)\.(\w+)", ...)`. -/
def matchP2 (l : List Char) : Option (String × String × String × String × String) :=
  match splitField l with
  | none => none
  | some (g1, r1) =>
    match splitField r1 with
    | none => none
    | some (g2, r2) =>
      match splitField r2 with
      | none => none
      | some (g3, r3) =>
        match p34 r3 with
        | none => none
        | some (g4, g5) =>
          some (g1.asString, g2.asString, g3.asString, g4.asString, g5.asString)

/-- The result of `get_file_info`: a 4-tuple for the single-year pattern
or a 5-tuple for the two-year pattern. -/
inductive FileInfo where
  | single (account_holder bank_name financial_year extension : String)
  | double (account_holder bank_name year_start year_end extension : String)
deriving Repr, DecidableEq

/-- Model of `get_file_info`: try the single-year pattern, then the
two-year pattern, else raise `AttributeError`. -/
def get_file_info (file_name : String) : Except String FileInfo :=
  match matchP1 file_name.toList with
  | some (a, b, c, d) => .ok (.single a b c d)
  | none =>
    match matchP2 file_name.toList with
    | some (a, b, c, d, e) => .ok (.double a b c d e)
    | none => .error "The file name does not match either of the expected patterns."

/-- Reassembling a parse result into a filename, per the naming
convention of the module docstring. -/
def reassemble : FileInfo → String
  | .single h b y e => h ++ "_" ++ b ++ "_" ++ y ++ "." ++ e
  | .double h b y1 y2 e => h ++ "_" ++ b ++ "_" ++ y1 ++ "_" ++ y2 ++ "." ++ e

/-- Decidable test: the filename is exactly of the single-year shape
`holder_bank_year.ext` with `holder`, `bank`, `year` nonempty and
underscore-free and `ext` nonempty word characters. Splitting the residue
at its last dot is unambiguous because word characters contain no dot. -/
def splitLastDot (s : List Char) : Option (List Char × List Char) :=
  let rev := s.reverse
  let extRev := rev.takeWhile (fun c => c != '.')
  match rev.drop extRev.length with
  | '.' :: restRev => some (restRev.reverse, extRev.reverse)
  | _ => none

/-- The filename is exactly `holder_bank_year.ext`. -/
def isSingleYearShape (f : String) : Bool :=
  match splitField f.toList with
  | some (_, r1) =>
    match splitField r1 with
    | some (_, r2) =>
      match splitLastDot r2 with
      | some (y, e) =>
        !y.isEmpty && y.all (fun c => c != '_') && !e.isEmpty && e.all wordChar
      | none => false
    | none => false
  | none => false

/-- The filename is exactly `holder_bank_yearStart_yearEnd.ext`. -/
def isTwoYearShape (f : String) : Bool :=
  match splitField f.toList with
  | some (_, r1) =>
    match splitField r1 with
    | some (_, r2) =>
      match splitField r2 with
      | some (_, r3) =>
        match splitLastDot r3 with
        | some (y2, e) =>
          !y2.isEmpty && y2.all (fun c => c != '_') && !e.isEmpty && e.all wordChar
        | none => false
      | none => false
    | none => false
  | none => false

/-! ## `are_files_continuous` (lines 57–99) -/

/-- Python `int(...)` on a (non-negative) year token: all characters must
be decimal digits. -/
def strToNat (s : String) : Option Nat :=
  if s.toList.isEmpty then none
  else if s.toList.all (fun c => c.isDigit) then
    some (s.toList.foldl (fun n c => 10 * n + (c.toNat - 48)) 0)
  else none

/-- The per-file step of `are_files_continuous`: unpack
`account_holder, bank_name, financial_year, extension = get_file_info(...)`
(a 5-tuple raises `ValueError`) and convert the year with `int(...)`. -/
def parseSingleYear (file_name : String) : Except String (String × String × Nat) :=
  match get_file_info file_name with
  | .ok (.single h b y _) =>
    match strToNat y with
    | some n => .ok (h, b, n)
    | none => .error "invalid literal for int()"
  | .ok (.double _ _ _ _ _) => .error "too many values to unpack"
  | .error e => .error e

/-- Parse every file name, propagating the first exception. -/
def parse_all : List String → Except String (List (String × String × Nat))
  | [] => .ok []
  | f :: fs =>
    match parseSingleYear f, parse_all fs with
    | .ok d, .ok ds => .ok (d :: ds)
    | .error e, _ => .error e
    | _, .error e => .error e

/-- Append a year to the group of `key` in an insertion-ordered
association list (the model of the Python dict `bank_accounts`). -/
def addYear (groups : List ((String × String) × List Nat)) (key : String × String)
    (y : Nat) : List ((String × String) × List Nat) :=
  match groups with
  | [] => [(key, [y])]
  | (k, ys) :: rest =>
    if k = key then (k, ys ++ [y]) :: rest else (k, ys) :: addYear rest key y

/-- Group the parsed descriptors by `(bank_name, account_holder)`,
collecting the fiscal years of each group in file order. -/
def groupAccounts (ds : List (String × String × Nat)) :
    List ((String × String) × List Nat) :=
  ds.foldl (fun groups d => addYear groups (d.2.1, d.1) d.2.2) []

/-- `is_continuous`: `len(years) == max(years) - min(years) + 1`. -/
def is_continuous (years : List Nat) : Bool :=
  match years.max?, years.min? with
  | some mx, some mn => years.length == mx - mn + 1
  | _, _ => false

/-- The missing `{bank}{year}_{holder}` identifiers of one group: the
years of `range(min, max + 1)` that the group lacks. -/
def missingIdsOf (key : String × String) (years : List Nat) : List String :=
  match years.max?, years.min? with
  | some mx, some mn =>
    (((List.range (mx + 1 - mn)).map (· + mn)).filter (fun y => !years.contains y)).map
      (fun y => key.1 ++ toString y ++ "_" ++ key.2)
  | _, _ => []

/-- The aggregated `missing_files` list, extended across all groups. -/
def missing_files (groups : List ((String × String) × List Nat)) : List String :=
  (groups.map (fun g => missingIdsOf g.1 g.2)).flatten

/-- The exceptions `are_files_continuous` can raise: a filename-parsing
exception propagating out of the loop, or the
`ValueError("Files are missing: ...")` carrying the missing identifiers. -/
inductive ContinuityError where
  | parseError (msg : String)
  | missingFiles (ids : List String)
deriving Repr, DecidableEq

/-- Model of `are_files_continuous`. -/
def are_files_continuous (file_names : List String) : Except ContinuityError Bool :=
  match parse_all file_names with
  | .error e => .error (.parseError e)
  | .ok ds =>
    let groups := groupAccounts ds
    if groups.all (fun g => is_continuous g.2) then .ok true
    else .error (.missingFiles (missing_files groups))

/-! ## `enrich_statements` (lines 312–360)

The four bank adapters rewrite bank-specific raw layouts into the
canonical columns; their cell-level cleaning is outside the claims about
this stage, so tables are taken already in canonical `RawTxn` form and
the modelled part is the dispatch on the bank code and the assignment of
the `bank` and `account holder` columns, which the adapters never touch. -/

/-- The `bank` column assigned by the dispatch chain of
`enrich_statements`; unsupported bank codes fall through every branch and
the column is never assigned (`none`). -/
def bankNameOf (bank_name : String) : Option String :=
  if bank_name = "BOM" then some "Bank of Maharashtra"
  else if bank_name = "CB" then some "Canara Bank"
  else if bank_name = "ICICI" then some "ICICI Bank"
  else if bank_name = "SBI" then some "State Bank of India"
  else none

/-- `account_holders.get(account_holder, None)`. -/
def lookupHolder (account_holders : List (String × String)) (code : String) :
    Option String :=
  (account_holders.find? (fun p => p.1 = code)).map (·.2)

/-- Model of `enrich_statements`: for each file, parse the filename,
assign the bank name for the four supported codes (otherwise leave the
column unassigned) and set `account holder` from the caller-supplied
mapping (`None` when absent). -/
def enrich_statements :
    List (String × List RawTxn) → List (String × String) →
      Except String (List (String × List Row))
  | [], _ => .ok []
  | (f, t) :: rest, account_holders =>
    match get_file_info f with
    | .ok (.single h b _ _) =>
      match enrich_statements rest account_holders with
      | .ok out =>
        .ok ((f, t.map (fun r =>
          { date := r.date, description := r.description, credit := r.credit,
            debit := r.debit, balance := r.balance, bank := bankNameOf b,
            account_holder := lookupHolder account_holders h })) :: out)
      | .error e => .error e
    | .ok (.double _ _ _ _ _) => .error "too many values to unpack"
    | .error e => .error e

/-! ## `merge_statements` (lines 549–580) -/

/-- Concatenate a table onto the group of `key` in an insertion-ordered
association list (the model of the dict `bank_accounts`). -/
def addRows (acc : List (String × List Row)) (key : String) (t : List Row) :
    List (String × List Row) :=
  match acc with
  | [] => [(key, t)]
  | (k, t') :: rest =>
    if k = key then (k, t' ++ t) :: rest else (k, t') :: addRows rest key t

/-- Key every table by `f"{bank_name}_{account_holder}"` from its
filename, propagating parse exceptions. -/
def keyStatements : List (String × List Row) →
    Except String (List (String × List Row))
  | [] => .ok []
  | (f, t) :: rest =>
    match get_file_info f with
    | .ok (.single h b _ _) =>
      match keyStatements rest with
      | .ok out => .ok ((b ++ "_" ++ h, t) :: out)
      | .error e => .error e
    | .ok (.double _ _ _ _ _) => .error "too many values to unpack"
    | .error e => .error e

/-- Model of `merge_statements`: group per-file tables by bank account,
concatenate tables sharing a key (no dedup), then sort each merged table
by (date ascending, credit descending). -/
def merge_statements (statements : List (String × List Row)) :
    Except String (List (String × List Row)) :=
  match keyStatements statements with
  | .error e => .error e
  | .ok keyed =>
    .ok ((keyed.foldl (fun acc kt => addRows acc kt.1 kt.2) []).map
      (fun g => (g.1, sort_values Row.date Row.credit g.2)))

/-! ## The file loaders (lines 362–386, 521–547, 582–676)

The outcomes of the external library calls are the fields of a
`FileModel`; the repository's own control flow over them is modelled
faithfully. `α` stands for the pandas DataFrame (or dict-of-DataFrames)
type. -/

/-- The observable behaviour of one on-disk file under the primitive
parsing operations. -/
structure FileModel (α : Type) where
  /-- Outcome of `pandas.read_excel(file_path, sheet_name=None, engine=e)`. -/
  excelEngine : String → Except String α
  /-- The `<table>` elements found by BeautifulSoup: each table is its
  list of `<tr>` rows, each row its list of cell texts. `.error` when the
  file cannot be opened/parsed at all. -/
  htmlTables : Except String (List (List (List String)))
  /-- The lines of the file when opened as text. -/
  textLines : Except String (List String)
  /-- Outcome of `pandas.read_csv(file_path, delimiter=d, engine="python",
  skiprows=s)`. -/
  readCsv : String → Nat → Except String α
  /-- `DataFrame(data=rows, columns=header)`. -/
  makeTable : List String → List (List String) → α

/-- The engine order of `read_as_excel_file`. -/
def excelEngines : List String := ["openpyxl", "pyxlsb", "xlrd"]

/-- Try the engines in order, returning the first success. -/
def firstEngine {α : Type} (f : FileModel α) : List String → Except String α
  | [] => .error "Unable to read as an Excel file."
  | e :: es =>
    match f.excelEngine e with
    | .ok df => .ok df
    | .error _ => firstEngine f es

/-- Model of `read_as_excel_file`. -/
def read_as_excel_file {α : Type} (f : FileModel α) : Except String α :=
  firstEngine f excelEngines

/-- Model of `find_data_start`: the first (0-indexed) line whose
`line.strip().split(delimiter)` has at least `min_columns` fields. -/
def find_data_start {α : Type} (f : FileModel α) (delimiter : String)
    (min_columns : Nat) : Except String Nat :=
  match f.textLines with
  | .error e => .error e
  | .ok lines =>
    match lines.findIdx? (fun line =>
        min_columns ≤ (line.trim.splitOn delimiter).length) with
    | some i => .ok i
    | none => .error "Unable to determine where tabular data starts in the file."

/-- Model of `read_as_html_file`: scan the tables in document order and
return a DataFrame built from the first table whose header row has at
least `min_columns` cells. -/
def read_as_html_file {α : Type} (f : FileModel α) (min_columns : Nat) :
    Except String α :=
  match f.htmlTables with
  | .error e => .error e
  | .ok tables =>
    match tables.find? (fun t => min_columns ≤ (t.headD []).length) with
    | some t => .ok (f.makeTable (t.headD []) (t.drop 1))
    | none => .error "No table contains the minimum number of columns."

/-- One delimiter strategy of `read_as_text_file`: locate the data start
for this delimiter, then parse from that line. -/
def textStrategy {α : Type} (f : FileModel α) (delimiter : String) :
    Except String α :=
  match find_data_start f delimiter 5 with
  | .ok s => f.readCsv delimiter s
  | .error e => .error e

/-- Model of `read_as_text_file`: tab strategy, then comma strategy, each
failure logged; both failing falls off the end of the function, returning
`None`. -/
def read_as_text_file {α : Type} (f : FileModel α) : Option α :=
  match textStrategy f "\t" with
  | .ok df => some df
  | .error _ =>
    match textStrategy f "," with
    | .ok df => some df
    | .error _ => none

/-- Model of `load_file_to_dataframe`: Excel first; on failure the text
reader; any remaining failure yields `None` rather than an exception. -/
def load_file_to_dataframe {α : Type} (f : FileModel α) : Option α :=
  match read_as_excel_file f with
  | .ok df => some df
  | .error _ => read_as_text_file f

/-- Modelled from the spec: the Format Loader of §4.4, which attempts the
spreadsheet parse, then the HTML-table parse (absent from
`load_file_to_dataframe` in the source, where `read_as_html_file` is only
called in the BOM multi-year pre-pass), then the delimited-text parse. -/
def spec_load_file_to_dataframe {α : Type} (f : FileModel α) (min_columns : Nat) :
    Option α :=
  match read_as_excel_file f with
  | .ok df => some df
  | .error _ =>
    match read_as_html_file f min_columns with
    | .ok df => some df
    | .error _ => read_as_text_file f

/-! Concrete sample values used by the example parts of the claims. -/

/-- A generic canonical row used in counterexamples. -/
def exRawTxn : RawTxn :=
  { date := 20220401, description := "generic", credit := 10, debit := 5,
    balance := 500 }

/-- A file whose spreadsheet and text parses fail but which contains an
HTML table with a five-column header. -/
def exHtmlOnlyFile : FileModel Nat :=
  { excelEngine := fun _ => .error "not a zip file",
    htmlTables := .ok [[["Date", "Particulars", "Withdrawals", "Deposits", "Balance"],
                        ["01/04/23", "UPI", "500.00", "", "1500.00"]]],
    textLines := .error "binary file",
    readCsv := fun _ _ => .error "unreadable",
    makeTable := fun _ _ => 7 }

/-- The first post-synthesis transaction of the consolidation example:
{date 2024-01-01, credit 100, debit 0}. -/
def exCreditTxn : Txn :=
  { date := 20240101, description := "credit txn", credit := 100, debit := 0,
    bank := none, account_holder := none }

/-- The second post-synthesis transaction of the consolidation example:
{date 2024-01-01, credit 0, debit −50}. -/
def exDebitTxn : Txn :=
  { date := 20240101, description := "debit txn", credit := 0, debit := -50,
    bank := none, account_holder := none }

/-- The first merged transaction of the opening-balance example:
{balance 1000, debit 0, credit 200}. -/
def exFirstRow : Row :=
  { date := 20230401, description := "first txn", credit := 200, debit := 0,
    balance := 1000, bank := some "Canara Bank",
    account_holder := some "Tony Stark" }

/-- A first merged transaction whose computed opening balance is negative:
`opening_balance = -100 + 0 - 0 = -100`. -/
def exNegativeRow : Row :=
  { date := 20220401, description := "overdrawn", credit := 0, debit := 0,
    balance := -100, bank := some "Canara Bank",
    account_holder := some "Tony Stark" }

/-! ## Helper lemmas about the sort order -/

unseal List.merge List.mergeSort

theorem stmtLe_iff {α : Type} (d : α → Nat) (c : α → ℚ) (a b : α) :
    stmtLe d c a b = true ↔ (d a < d b ∨ (d a = d b ∧ c b ≤ c a)) := by
  simp [stmtLe, Bool.or_eq_true, Bool.and_eq_true, decide_eq_true_eq, beq_iff_eq]

theorem stmtLe_trans {α : Type} (d : α → Nat) (c : α → ℚ) (a b e : α)
    (h1 : stmtLe d c a b = true) (h2 : stmtLe d c b e = true) :
    stmtLe d c a e = true := by
  rw [stmtLe_iff] at h1 h2 ⊢
  rcases h1 with h1 | ⟨h1, h1c⟩ <;> rcases h2 with h2 | ⟨h2, h2c⟩
  · exact Or.inl (Nat.lt_trans h1 h2)
  · exact Or.inl (h2 ▸ h1)
  · exact Or.inl (h1 ▸ h2)
  · exact Or.inr ⟨h1.trans h2, h2c.trans h1c⟩

theorem stmtLe_total {α : Type} (d : α → Nat) (c : α → ℚ) (a b : α) :
    (stmtLe d c a b || stmtLe d c b a) = true := by
  rcases Nat.lt_trichotomy (d a) (d b) with h | h | h
  · simp [stmtLe_iff (a := a) (b := b), h]
  · rcases le_total (c b) (c a) with hc | hc
    · simp [stmtLe_iff (a := a) (b := b), h, hc]
    · simp [stmtLe_iff (a := b) (b := a), h.symm, hc]
  · simp [stmtLe_iff (a := b) (b := a), h]

theorem sort_values_pairwise {α : Type} (d : α → Nat) (c : α → ℚ) (l : List α) :
    (sort_values d c l).Pairwise (fun a b => stmtLe d c a b = true) := by
  exact List.sorted_mergeSort
    (fun a b e h1 h2 => stmtLe_trans d c a b e h1 h2)
    (fun a b => stmtLe_total d c a b) l

theorem sort_values_perm {α : Type} (d : α → Nat) (c : α → ℚ) (l : List α) :
    (sort_values d c l).Perm l :=
  List.mergeSort_perm l _

theorem sort_values_of_sorted {α : Type} (d : α → Nat) (c : α → ℚ) {l : List α}
    (h : l.Pairwise (fun a b => stmtLe d c a b = true)) :
    sort_values d c l = l :=
  List.mergeSort_of_sorted h

/-! ## Helper lemmas about the running balance -/

theorem runningBalance_toTxn (acc : ℚ) (l : List Txn) :
    (runningBalance acc l).map LRow.toTxn = l := by
  induction l generalizing acc with
  | nil => rfl
  | cons t ts ih => simp only [runningBalance, List.map_cons, ih]; rfl

theorem runningBalance_length (acc : ℚ) (l : List Txn) :
    (runningBalance acc l).length = l.length := by
  have := congrArg List.length (runningBalance_toTxn acc l)
  simpa using this

theorem runningBalance_balance_zero (l : List Txn) (acc : ℚ)
    (h0 : 0 < (runningBalance acc l).length) :
    ((runningBalance acc l)[0]).balance =
      acc + ((runningBalance acc l)[0]).credit + ((runningBalance acc l)[0]).debit := by
  cases l with
  | nil => simp [runningBalance] at h0
  | cons t ts => simp [runningBalance]

theorem runningBalance_balance_succ (l : List Txn) (acc : ℚ) (i : Nat)
    (h1 : i + 1 < (runningBalance acc l).length)
    (h0 : i < (runningBalance acc l).length) :
    ((runningBalance acc l)[i + 1]).balance =
      ((runningBalance acc l)[i]).balance +
      ((runningBalance acc l)[i + 1]).credit +
      ((runningBalance acc l)[i + 1]).debit := by
  induction l generalizing acc i with
  | nil => simp [runningBalance] at h1
  | cons t ts ih =>
    cases i with
    | zero =>
      cases ts with
      | nil => simp [runningBalance] at h1
      | cons t2 ts2 => simp [runningBalance]
    | succ n =>
      have h1' : n + 1 < (runningBalance (acc + t.credit + t.debit) ts).length := by
        simpa [runningBalance] using h1
      have h0' : n < (runningBalance (acc + t.credit + t.debit) ts).length := by
        omega
      have := ih (acc + t.credit + t.debit) n h1' h0'
      simpa [runningBalance] using this

theorem consolidate_pairwise (m : List (List Txn)) :
    (consolidate_statements m).Pairwise
      (fun a b => stmtLe Txn.date Txn.credit (LRow.toTxn a) (LRow.toTxn b) = true) := by
  have hp := sort_values_pairwise Txn.date Txn.credit m.flatten
  have hmap : (consolidate_statements m).map LRow.toTxn
      = sort_values Txn.date Txn.credit m.flatten := runningBalance_toTxn 0 _
  rw [← hmap, List.pairwise_map] at hp
  exact hp

/-- C1: `consolidate_statements` returns the concatenation of all tables
sorted by (date ascending, credit descending), with `balance` recomputed
as the running cumulative sum of `credit + debit` in that order
(`balance[0] = credit[0] + debit[0]`,
`balance[i+1] = balance[i] + credit[i+1] + debit[i+1]`; any prior balance
values are discarded, the input rows carrying no balance), the final
column order being
{date, description, credit, debit, balance, bank, account_holder};
in particular the two post-synthesis transactions
{date 2024-01-01, credit 100, debit 0} and
{date 2024-01-01, credit 0, debit −50} consolidate to balances 100 and 50
in that order. -/
theorem consolidate_statements_spec (m : List (List Txn)) :
    ((consolidate_statements m).map LRow.toTxn).Perm m.flatten ∧
    (∀ (i j : Nat) (hi : i < (consolidate_statements m).length)
        (hj : j < (consolidate_statements m).length), i < j →
      ((consolidate_statements m)[i]).date ≤ ((consolidate_statements m)[j]).date ∧
      (((consolidate_statements m)[i]).date = ((consolidate_statements m)[j]).date →
        ((consolidate_statements m)[j]).credit ≤ ((consolidate_statements m)[i]).credit)) ∧
    (∀ h0 : 0 < (consolidate_statements m).length,
      ((consolidate_statements m)[0]).balance =
        ((consolidate_statements m)[0]).credit +
        ((consolidate_statements m)[0]).debit) ∧
    (∀ (i : Nat) (h1 : i + 1 < (consolidate_statements m).length)
        (h0 : i < (consolidate_statements m).length),
      ((consolidate_statements m)[i + 1]).balance =
        ((consolidate_statements m)[i]).balance +
        ((consolidate_statements m)[i + 1]).credit +
        ((consolidate_statements m)[i + 1]).debit) ∧
    consolidatedColumns
      = ["date", "description", "credit", "debit", "balance", "bank", "account_holder"] ∧
    (consolidate_statements [[exCreditTxn, exDebitTxn]]).map LRow.balance
      = [100, 50] := by
  have hsort : sort_values Txn.date Txn.credit [exCreditTxn, exDebitTxn]
      = [exCreditTxn, exDebitTxn] := by decide
  have hex : (consolidate_statements [[exCreditTxn, exDebitTxn]]).map LRow.balance
      = [100, 50] := by
    show (runningBalance 0 (sort_values Txn.date Txn.credit
      ([[exCreditTxn, exDebitTxn]].flatten))).map LRow.balance = [100, 50]
    rw [show ([[exCreditTxn, exDebitTxn]] : List (List Txn)).flatten
        = [exCreditTxn, exDebitTxn] from rfl, hsort]
    norm_num [runningBalance, exCreditTxn, exDebitTxn]
  refine ⟨?_, ?_, ?_, ?_, rfl, hex⟩
  · rw [show consolidate_statements m
        = runningBalance 0 (sort_values Txn.date Txn.credit m.flatten) from rfl,
      runningBalance_toTxn]
    exact sort_values_perm Txn.date Txn.credit m.flatten
  · intro i j hi hj hij
    have hle := List.pairwise_iff_getElem.mp (consolidate_pairwise m) i j hi hj hij
    rw [stmtLe_iff] at hle
    constructor
    · rcases hle with h | ⟨h, _⟩
      · exact Nat.le_of_lt h
      · exact Nat.le_of_eq h
    · intro hdate
      rcases hle with h | ⟨_, hc⟩
      · exact absurd hdate (Nat.ne_of_lt h)
      · exact hc
  · intro h0
    have := runningBalance_balance_zero (sort_values Txn.date Txn.credit m.flatten) 0 h0
    simpa using this
  · intro i h1 h0
    exact runningBalance_balance_succ _ 0 i h1 h0

/-- C1 witness: the ordering component of the contract applied at the
concrete two-transaction instance, indices 0 < 1, with the bounds
discharged concretely. -/
theorem consolidate_statements_spec_witness :
    ((consolidate_statements [[exCreditTxn, exDebitTxn]]).get ⟨0, by decide⟩).date
        ≤ ((consolidate_statements [[exCreditTxn, exDebitTxn]]).get ⟨1, by decide⟩).date ∧
    (consolidate_statements [[exCreditTxn, exDebitTxn]]).map LRow.balance = [100, 50] :=
  ⟨((consolidate_statements_spec [[exCreditTxn, exDebitTxn]]).2.1 0 1
      (by decide) (by decide) (by decide)).1,
    (consolidate_statements_spec [[exCreditTxn, exDebitTxn]]).2.2.2.2.2⟩

/-- C8: consolidation is idempotent — feeding the consolidated ledger (its
rows taken back as post-synthesis transactions) through
`consolidate_statements` again reproduces the very same ledger, so in
particular identical balance values row for row. -/
theorem consolidate_statements_idempotent (m : List (List Txn)) :
    consolidate_statements [(consolidate_statements m).map LRow.toTxn]
      = consolidate_statements m ∧
    (consolidate_statements [(consolidate_statements m).map LRow.toTxn]).map LRow.balance
      = (consolidate_statements m).map LRow.balance := by
  have hmap : (consolidate_statements m).map LRow.toTxn
      = sort_values Txn.date Txn.credit m.flatten := runningBalance_toTxn 0 _
  have hmain : consolidate_statements [(consolidate_statements m).map LRow.toTxn]
      = consolidate_statements m := by
    rw [hmap]
    show runningBalance 0 (sort_values Txn.date Txn.credit
      ([sort_values Txn.date Txn.credit m.flatten].flatten)) = _
    rw [show [sort_values Txn.date Txn.credit m.flatten].flatten
        = sort_values Txn.date Txn.credit m.flatten by simp]
    rw [sort_values_of_sorted Txn.date Txn.credit
      (sort_values_pairwise Txn.date Txn.credit m.flatten)]
    rfl
  exact ⟨hmain, by rw [hmain]⟩

theorem stmtLe_unpack {α : Type} (d : α → Nat) (c : α → ℚ) {a b : α}
    (h : stmtLe d c a b = true) :
    d a ≤ d b ∧ (d a = d b → c b ≤ c a) := by
  rw [stmtLe_iff] at h
  constructor
  · rcases h with h | ⟨h, _⟩
    · exact Nat.le_of_lt h
    · exact Nat.le_of_eq h
  · intro hd
    rcases h with h | ⟨_, hc⟩
    · exact absurd hd (Nat.ne_of_lt h)
    · exact hc

/-- C5: in both the Merger's per-account sort and the Consolidator's
global sort, transactions are ordered by (date ascending, credit
descending): for any two rows at positions i < j the dates are
non-decreasing, and for any pair of rows with equal dates the one with
the larger credit sorts first. -/
theorem sort_order_spec :
    (∀ (stmts res : List (String × List Row)),
      merge_statements stmts = .ok res → ∀ g ∈ res,
        ∀ (i j : Nat) (hi : i < g.2.length) (hj : j < g.2.length), i < j →
          (g.2[i]).date ≤ (g.2[j]).date ∧
          ((g.2[i]).date = (g.2[j]).date → (g.2[j]).credit ≤ (g.2[i]).credit)) ∧
    (∀ (m : List (List Txn)) (i j : Nat)
        (hi : i < (consolidate_statements m).length)
        (hj : j < (consolidate_statements m).length), i < j →
      ((consolidate_statements m)[i]).date ≤ ((consolidate_statements m)[j]).date ∧
      (((consolidate_statements m)[i]).date = ((consolidate_statements m)[j]).date →
        ((consolidate_statements m)[j]).credit ≤ ((consolidate_statements m)[i]).credit)) := by
  constructor
  · intro stmts res hres g hg i j hi hj hij
    have hsorted : g.2.Pairwise (fun a b => stmtLe Row.date Row.credit a b = true) := by
      unfold merge_statements at hres
      cases hks : keyStatements stmts with
      | error e => rw [hks] at hres; cases hres
      | ok keyed =>
        rw [hks] at hres
        cases hres
        obtain ⟨g0, _, rfl⟩ := List.mem_map.mp hg
        exact sort_values_pairwise Row.date Row.credit g0.2
    exact stmtLe_unpack Row.date Row.credit
      (List.pairwise_iff_getElem.mp hsorted i j hi hj hij)
  · intro m i j hi hj hij
    have hle := List.pairwise_iff_getElem.mp (consolidate_pairwise m) i j hi hj hij
    exact stmtLe_unpack LRow.date LRow.credit hle

/-- C5 witness: the merger component applied to two single-row files of
the same Canara Bank account, indices 0 < 1. -/
theorem sort_order_spec_witness :
    ((("CB_TS", [exNegativeRow, exFirstRow]) : String × List Row).2.get
        ⟨0, by decide⟩).date ≤
      ((("CB_TS", [exNegativeRow, exFirstRow]) : String × List Row).2.get
        ⟨1, by decide⟩).date :=
  (sort_order_spec.1
    [("TS_CB_2022.csv", [exNegativeRow]), ("TS_CB_2023.csv", [exFirstRow])]
    [("CB_TS", [exNegativeRow, exFirstRow])] rfl
    ("CB_TS", [exNegativeRow, exFirstRow]) (List.mem_cons_self _ _)
    0 1 (by decide) (by decide) (by decide)).1

/-- C2: the Opening-Balance Synthesizer takes the first transaction of a
merged table, computes `opening_balance = balance + debit - credit`, and
builds a synthetic transaction with description
"Balance brought forward" whose credit is the opening balance and debit 0
when the opening balance is ≥ 0, and whose debit is the (negative)
opening balance and credit 0 otherwise, prepending it to the table; in
particular a first transaction {balance 1000, debit 0, credit 200} yields
a synthesized opening transaction with credit 800 and debit 0, and after
sign conversion the real transaction still has debit 0 and credit 200. -/
theorem enrich_merged_opening_spec (rows rest : List Row) (r0 : Row)
    (hrows : rows = r0 :: rest) :
    ((openingTransaction r0).description = "Balance brought forward") ∧
    (0 ≤ r0.balance + r0.debit - r0.credit →
      (openingTransaction r0).credit = r0.balance + r0.debit - r0.credit ∧
      (openingTransaction r0).debit = 0) ∧
    (r0.balance + r0.debit - r0.credit < 0 →
      (openingTransaction r0).debit = r0.balance + r0.debit - r0.credit ∧
      (openingTransaction r0).credit = 0) ∧
    enrich_merged_statement_table rows
      = some ((openingTransaction r0 :: rows).map signConvert) ∧
    (openingTransaction exFirstRow).credit = 800 ∧
    (openingTransaction exFirstRow).debit = 0 ∧
    enrich_merged_statement_table [exFirstRow]
      = some [signConvert (openingTransaction exFirstRow), signConvert exFirstRow] ∧
    (signConvert exFirstRow).debit = 0 ∧
    (signConvert exFirstRow).credit = 200 := by
  subst hrows
  have hob : (0 : ℚ) ≤ exFirstRow.balance + exFirstRow.debit - exFirstRow.credit := by
    norm_num [exFirstRow]
  refine ⟨rfl, ?_, ?_, rfl, ?_, ?_, rfl, ?_, rfl⟩
  · intro h
    constructor
    · show (if (0 : ℚ) ≤ r0.balance + r0.debit - r0.credit
        then r0.balance + r0.debit - r0.credit else 0) = r0.balance + r0.debit - r0.credit
      rw [if_pos h]
    · show (if (0 : ℚ) ≤ r0.balance + r0.debit - r0.credit
        then (0 : ℚ) else r0.balance + r0.debit - r0.credit) = 0
      rw [if_pos h]
  · intro h
    constructor
    · show (if (0 : ℚ) ≤ r0.balance + r0.debit - r0.credit
        then (0 : ℚ) else r0.balance + r0.debit - r0.credit) = r0.balance + r0.debit - r0.credit
      rw [if_neg (not_le.mpr h)]
    · show (if (0 : ℚ) ≤ r0.balance + r0.debit - r0.credit
        then r0.balance + r0.debit - r0.credit else 0) = 0
      rw [if_neg (not_le.mpr h)]
  · show (if (0 : ℚ) ≤ exFirstRow.balance + exFirstRow.debit - exFirstRow.credit
      then exFirstRow.balance + exFirstRow.debit - exFirstRow.credit else 0) = 800
    rw [if_pos hob]
    norm_num [exFirstRow]
  · show (if (0 : ℚ) ≤ exFirstRow.balance + exFirstRow.debit - exFirstRow.credit
      then (0 : ℚ) else exFirstRow.balance + exFirstRow.debit - exFirstRow.credit) = 0
    rw [if_pos hob]
  · show -exFirstRow.debit = 0
    norm_num [exFirstRow]

/-- C2 witness: the contract applied to the concrete one-row merged table
whose first transaction is {balance 1000, debit 0, credit 200}. -/
theorem enrich_merged_opening_spec_witness :
    (openingTransaction exFirstRow).credit = 800 ∧
    (openingTransaction exFirstRow).debit = 0 :=
  ⟨(enrich_merged_opening_spec [exFirstRow] [] exFirstRow rfl).2.2.2.2.1,
    (enrich_merged_opening_spec [exFirstRow] [] exFirstRow rfl).2.2.2.2.2.1⟩

/-- C3 (code-bug exhibit): on a merged table whose computed opening
balance is negative, the table-wide debit negation of
`enrich_merged_statement` also negates the synthetic opening
transaction's already-negative debit, so the resulting table contains a
strictly positive debit — the synthesized opening debit comes out as
+100 for an opening balance of −100 — contradicting the invariant that
every post-synthesis debit is ≤ 0 (and with it
`balance[0] = synthesized opening balance`). The balance column is
nevertheless dropped and the columns reordered as claimed. -/
theorem enrich_merged_negative_opening_bug :
    (signConvert (openingTransaction exNegativeRow)).debit = 100 ∧
    ¬ (signConvert (openingTransaction exNegativeRow)).debit ≤ 0 ∧
    enrich_merged_statement_table [exNegativeRow]
      = some [signConvert (openingTransaction exNegativeRow),
              signConvert exNegativeRow] := by
  have hob : ¬ (0 : ℚ) ≤ exNegativeRow.balance + exNegativeRow.debit - exNegativeRow.credit := by
    norm_num [exNegativeRow]
  have hdeb : (signConvert (openingTransaction exNegativeRow)).debit = 100 := by
    show -(if (0 : ℚ) ≤ exNegativeRow.balance + exNegativeRow.debit - exNegativeRow.credit
      then (0 : ℚ) else exNegativeRow.balance + exNegativeRow.debit - exNegativeRow.credit) = 100
    rw [if_neg hob]
    norm_num [exNegativeRow]
  refine ⟨hdeb, ?_, rfl⟩
  rw [hdeb]
  norm_num

/-- C10: a file list with two files of the same (bank, holder) pair and
the same fiscal year under two extensions — and no year absent from the
min-to-max range — does not validate: `are_files_continuous` raises the
missing-files error with an empty list of missing identifiers, because
the duplicate makes the year count exceed max − min + 1. -/
theorem duplicate_years_empty_missing_list :
    are_files_continuous ["TS_BB_2022.csv", "TS_BB_2022.xlsx"]
      = .error (.missingFiles []) := rfl

/-- C4: for every list of single-year filenames (parsing to
(holder, bank, year) descriptors), `are_files_continuous` returns true
iff every (bank, holder) group satisfies
count(years) = max(years) − min(years) + 1; otherwise it raises the
missing-files error whose identifier list aggregates, across all failing
groups, every absent `{bank}{year}_{holder}` combination; in particular
{TS_BB_2022.csv, TS_BB_2023.csv, TS_BB_2024.csv} validates as true, and
removing TS_BB_2023.csv raises an error containing "BB2023_TS". -/
theorem are_files_continuous_spec (fs : List String)
    (ds : List (String × String × Nat)) (hp : parse_all fs = .ok ds) :
    (are_files_continuous fs = .ok true ↔
      ∀ g ∈ groupAccounts ds, is_continuous g.2 = true) ∧
    ((¬ ∀ g ∈ groupAccounts ds, is_continuous g.2 = true) →
      are_files_continuous fs
        = .error (.missingFiles (missing_files (groupAccounts ds)))) ∧
    (∀ g ∈ groupAccounts ds, ∀ s ∈ missingIdsOf g.1 g.2,
      s ∈ missing_files (groupAccounts ds)) ∧
    are_files_continuous ["TS_BB_2022.csv", "TS_BB_2023.csv", "TS_BB_2024.csv"]
      = .ok true ∧
    are_files_continuous ["TS_BB_2022.csv", "TS_BB_2024.csv"]
      = .error (.missingFiles ["BB2023_TS"]) ∧
    "BB2023_TS" ∈ ["BB2023_TS"] := by
  have hred : are_files_continuous fs
      = (if (groupAccounts ds).all (fun g => is_continuous g.2)
         then Except.ok true
         else .error (.missingFiles (missing_files (groupAccounts ds)))) := by
    simp only [are_files_continuous, hp]
  refine ⟨?_, ?_, ?_, rfl, rfl, by simp⟩
  · rw [hred]
    by_cases hall : (groupAccounts ds).all (fun g => is_continuous g.2) = true
    · rw [if_pos hall]
      exact ⟨fun _ => List.all_eq_true.mp hall, fun _ => rfl⟩
    · rw [if_neg hall]
      constructor
      · intro h; simp at h
      · intro hforall; exact absurd (List.all_eq_true.mpr hforall) hall
  · intro hn
    have hall : ¬ (groupAccounts ds).all (fun g => is_continuous g.2) = true :=
      fun hq => hn (List.all_eq_true.mp hq)
    rw [hred, if_neg hall]
  · intro g hg s hs
    exact List.mem_flatten.mpr ⟨missingIdsOf g.1 g.2, List.mem_map_of_mem _ hg, hs⟩

/-- C4 witness: the contiguous three-file set and the gapped two-file set,
with the parsing hypothesis discharged concretely. -/
theorem are_files_continuous_spec_witness :
    are_files_continuous ["TS_BB_2022.csv", "TS_BB_2023.csv", "TS_BB_2024.csv"]
      = .ok true ∧
    are_files_continuous ["TS_BB_2022.csv", "TS_BB_2024.csv"]
      = .error (.missingFiles ["BB2023_TS"]) :=
  ⟨(are_files_continuous_spec ["TS_BB_2022.csv", "TS_BB_2023.csv", "TS_BB_2024.csv"]
      [("TS", "BB", 2022), ("TS", "BB", 2023), ("TS", "BB", 2024)] rfl).2.2.2.1,
    (are_files_continuous_spec ["TS_BB_2022.csv", "TS_BB_2023.csv", "TS_BB_2024.csv"]
      [("TS", "BB", 2022), ("TS", "BB", 2023), ("TS", "BB", 2024)] rfl).2.2.2.2.1⟩

/-- C7 counterexample: a statement with the unsupported bank code "XX" and
an empty holder mapping passes through enrichment, merging and synthesis
with its `bank` column never assigned and `account holder` set to null;
the synthesized table — the input of the Consolidator — contains a
transaction with both fields null, refuting the claim that every
transaction entering the Consolidator has them populated. -/
theorem enrichment_nulls_cex :
    ∃ enriched merged synth,
      enrich_statements [("AA_XX_2022.csv", [exRawTxn])] [] = .ok enriched ∧
      merge_statements enriched = .ok merged ∧
      enrich_merged_statement merged = some synth ∧
      ∃ kv ∈ synth, ∃ t ∈ kv.2, t.bank = none ∧ t.account_holder = none := by
  refine ⟨_, _, _, rfl, rfl, rfl, ?_⟩
  exact ⟨_, List.mem_cons_self _ _, _, List.mem_cons_self _ _, rfl, rfl⟩

/-- C7 (amended): after `enrich_statements`, every row of every statement
has `bank` equal to the adapter dispatch's bank name — populated exactly
for the four supported codes BOM, CB, ICICI and SBI, unassigned (null)
otherwise — and `account_holder` equal to the caller-supplied mapping's
entry for the file's holder code — null when the code is unmapped. -/
theorem enrich_statements_population (statements : List (String × List RawTxn))
    (account_holders : List (String × String)) (out : List (String × List Row))
    (hout : enrich_statements statements account_holders = .ok out) :
    ∀ kv ∈ out, ∃ h b y ext,
      get_file_info kv.1 = .ok (.single h b y ext) ∧
      ∀ r ∈ kv.2, r.bank = bankNameOf b ∧
        r.account_holder = lookupHolder account_holders h := by
  induction statements generalizing out with
  | nil =>
    injection hout with hout
    subst hout
    intro kv hkv
    cases hkv
  | cons ft rest ih =>
    obtain ⟨f, t⟩ := ft
    cases hgf : get_file_info f with
    | error e =>
      simp only [enrich_statements, hgf] at hout
      simp at hout
    | ok info =>
      cases info with
      | double a b c d e =>
        simp only [enrich_statements, hgf] at hout
        simp at hout
      | single h b y ext =>
        simp only [enrich_statements, hgf] at hout
        cases hrest : enrich_statements rest account_holders with
        | error e =>
          rw [hrest] at hout
          simp at hout
        | ok out2 =>
          rw [hrest] at hout
          injection hout with hout
          subst hout
          intro kv hkv
          rcases List.mem_cons.mp hkv with hkv | hkv
          · subst hkv
            refine ⟨h, b, y, ext, hgf, ?_⟩
            intro r hr
            obtain ⟨r0, _, rfl⟩ := List.mem_map.mp hr
            exact ⟨rfl, rfl⟩
          · exact ih out2 hrest kv hkv

/-- C7 amended witness: the population characterization applied to the
concrete unsupported-bank file with the empty holder mapping, fully
instantiated at its single output row. -/
theorem enrich_statements_population_witness :
    ({ date := 20220401, description := "generic", credit := 10, debit := 5,
       balance := 500, bank := none, account_holder := none } : Row).bank
        = bankNameOf "XX" ∧
    ({ date := 20220401, description := "generic", credit := 10, debit := 5,
       balance := 500, bank := none, account_holder := none } : Row).account_holder
        = lookupHolder [] "AA" := by
  have h := enrich_statements_population [("AA_XX_2022.csv", [exRawTxn])] []
    [("AA_XX_2022.csv",
      [{ date := 20220401, description := "generic", credit := 10, debit := 5,
         balance := 500, bank := none, account_holder := none }])] rfl
    ("AA_XX_2022.csv",
      [{ date := 20220401, description := "generic", credit := 10, debit := 5,
         balance := 500, bank := none, account_holder := none }])
    (List.mem_cons_self _ _)
  obtain ⟨h1, b1, y1, ext1, hgf, hr⟩ := h
  rw [show get_file_info "AA_XX_2022.csv"
      = Except.ok (FileInfo.single "AA" "XX" "2022" "csv") from rfl] at hgf
  injection hgf with hgf2
  injection hgf2 with e1 e2 e3 e4
  subst e1
  subst e2
  exact hr _ (List.mem_cons_self _ _)

/-- C6 counterexample: a file whose spreadsheet and delimited-text parses
fail but which contains an HTML table with a five-column header; the
spec's loader (spreadsheet → HTML → text) would return the HTML table,
but `load_file_to_dataframe` never attempts the HTML parse and returns
no-result. -/
theorem load_file_to_dataframe_no_html_cex :
    read_as_html_file exHtmlOnlyFile 5 = .ok 7 ∧
    spec_load_file_to_dataframe exHtmlOnlyFile 5 = some 7 ∧
    load_file_to_dataframe exHtmlOnlyFile = none :=
  ⟨rfl, rfl, rfl⟩

/-- C6 (amended): for every file, `load_file_to_dataframe` attempts, in
order, (a) a spreadsheet parse using the first of the engines openpyxl,
pyxlsb, xlrd that succeeds, then (c) on failure a delimited-text parse
with tab delimiter from the first line with at least five columns,
retrying with comma delimiter from its own located start line, and
returns no-result (not an error) when these strategies fail; the
HTML-table parse is a separate function used only in the BOM multi-year
pre-pass, not a loader fallback. -/
theorem load_file_to_dataframe_spec {α : Type} (f : FileModel α) :
    load_file_to_dataframe f =
      (match read_as_excel_file f with
       | .ok df => some df
       | .error _ =>
         match textStrategy f "\t" with
         | .ok df => some df
         | .error _ =>
           match textStrategy f "," with
           | .ok df => some df
           | .error _ => none) ∧
    (∀ df, f.excelEngine "openpyxl" = .ok df → read_as_excel_file f = .ok df) ∧
    (∀ e1 df, f.excelEngine "openpyxl" = .error e1 →
      f.excelEngine "pyxlsb" = .ok df → read_as_excel_file f = .ok df) ∧
    (∀ e1 e2 df, f.excelEngine "openpyxl" = .error e1 →
      f.excelEngine "pyxlsb" = .error e2 →
      f.excelEngine "xlrd" = .ok df → read_as_excel_file f = .ok df) ∧
    (∀ e1 e2 e3, f.excelEngine "openpyxl" = .error e1 →
      f.excelEngine "pyxlsb" = .error e2 → f.excelEngine "xlrd" = .error e3 →
      read_as_excel_file f = .error "Unable to read as an Excel file.") ∧
    (∀ s df, find_data_start f "\t" 5 = .ok s → f.readCsv "\t" s = .ok df →
      read_as_text_file f = some df) ∧
    (∀ e1 e2, textStrategy f "\t" = .error e1 → textStrategy f "," = .error e2 →
      read_as_text_file f = none) ∧
    (∀ e e1 e2, read_as_excel_file f = .error e →
      textStrategy f "\t" = .error e1 → textStrategy f "," = .error e2 →
      load_file_to_dataframe f = none) := by
  refine ⟨rfl, ?_, ?_, ?_, ?_, ?_, ?_, ?_⟩
  · intro df h1
    simp [read_as_excel_file, excelEngines, firstEngine, h1]
  · intro e1 df h1 h2
    simp [read_as_excel_file, excelEngines, firstEngine, h1, h2]
  · intro e1 e2 df h1 h2 h3
    simp [read_as_excel_file, excelEngines, firstEngine, h1, h2, h3]
  · intro e1 e2 e3 h1 h2 h3
    simp [read_as_excel_file, excelEngines, firstEngine, h1, h2, h3]
  · intro s df h1 h2
    simp [read_as_text_file, textStrategy, h1, h2]
  · intro e1 e2 h1 h2
    simp [read_as_text_file, h1, h2]
  · intro e e1 e2 h h1 h2
    simp [load_file_to_dataframe, read_as_text_file, h, h1, h2]

/-- C6 amended witness: every strategy of the concrete HTML-only file
fails, so the loader returns no-result. -/
theorem load_file_to_dataframe_spec_witness :
    read_as_excel_file exHtmlOnlyFile = .error "Unable to read as an Excel file." ∧
    load_file_to_dataframe exHtmlOnlyFile = none :=
  ⟨(load_file_to_dataframe_spec exHtmlOnlyFile).2.2.2.2.1
      "not a zip file" "not a zip file" "not a zip file" rfl rfl rfl,
    (load_file_to_dataframe_spec exHtmlOnlyFile).2.2.2.2.2.2.2
      "Unable to read as an Excel file." "binary file" "binary file"
      ((load_file_to_dataframe_spec exHtmlOnlyFile).2.2.2.2.1
        "not a zip file" "not a zip file" "not a zip file" rfl rfl rfl)
      rfl rfl⟩

/-! ## Lemmas about the filename parser -/

theorem wordChar_ne_dot {c : Char} (hc : wordChar c = true) : c ≠ '.' := by
  intro h
  subst h
  exact absurd hc (by decide)

theorem asString_toList (s : String) : s.toList.asString = s := rfl

theorem splitField_spec (H R : List Char) (hne : H ≠ []) (hH : ∀ c ∈ H, c ≠ '_') :
    splitField (H ++ '_' :: R) = some (H, R) := by
  have htw : (H ++ '_' :: R).takeWhile (fun c => c != '_') = H := by
    rw [List.takeWhile_append_of_pos (by intro a ha; simpa using hH a ha)]
    simp
  simp only [splitField, htw, List.drop_left]
  simp [hne]

theorem p34go_skip (Y E : List Char) (hE : ∀ c ∈ E, wordChar c = true) (n : Nat) :
    p34go (Y ++ '.' :: E) (Y.length + n) = p34go (Y ++ '.' :: E) Y.length := by
  induction n with
  | zero => rfl
  | succ k ih =>
    have hchar : ∀ c, (Y ++ '.' :: E)[Y.length + k + 1]? = some c → ¬ c = '.' := by
      intro c hc
      rw [List.getElem?_append_right (by omega)] at hc
      have hidx : Y.length + k + 1 - Y.length = k + 1 := by omega
      rw [hidx] at hc
      rw [List.getElem?_cons_succ] at hc
      exact wordChar_ne_dot (hE c (List.getElem?_mem hc))
    rw [show Y.length + (k + 1) = Y.length + k + 1 from by omega]
    cases hL : (Y ++ '.' :: E)[Y.length + k + 1]? with
    | none =>
      simp only [p34go, hL]
      exact ih
    | some c =>
      simp only [p34go, hL, if_neg (hchar c hL)]
      exact ih

theorem p34_spec (Y E : List Char) (hYne : Y ≠ []) (hY : ∀ c ∈ Y, c ≠ '_')
    (hEne : E ≠ []) (hE : ∀ c ∈ E, wordChar c = true) :
    p34 (Y ++ '.' :: E) = some (Y, E) := by
  have hrun : (Y ++ '.' :: E).takeWhile (fun c => c != '_')
      = Y ++ '.' :: E.takeWhile (fun c => c != '_') := by
    rw [List.takeWhile_append_of_pos (by intro a ha; simpa using hY a ha)]
    simp
  have hlen : ((Y ++ '.' :: E).takeWhile (fun c => c != '_')).length
      = Y.length + (1 + (E.takeWhile (fun c => c != '_')).length) := by
    rw [hrun]
    simp [List.length_append]
    omega
  rw [p34, hlen, p34go_skip Y E hE]
  cases hYl : Y.length with
  | zero => exact absurd (List.length_eq_zero.mp hYl) hYne
  | succ m =>
    have hdot : (Y ++ '.' :: E)[m + 1]? = some '.' := by
      rw [← hYl, List.getElem?_append_right (Nat.le_refl _)]
      simp
    have hdrop : (Y ++ '.' :: E).drop (m + 2) = E := by
      rw [show Y ++ '.' :: E = (Y ++ ['.']) ++ E by simp]
      exact List.drop_left' (by simp; omega)
    have htwE : E.takeWhile wordChar = E :=
      List.takeWhile_eq_self_iff.mpr (by intro x hx; simpa using hE x hx)
    have hEfalse : E.isEmpty = false := List.isEmpty_eq_false.mpr hEne
    have htake : (Y ++ '.' :: E).take (m + 1) = Y := by
      rw [show Y ++ '.' :: E = Y ++ '.' :: E from rfl]
      exact List.take_left' hYl
    simp only [p34go, hdot, if_pos rfl, hdrop, htwE, hEfalse, htake]
    rfl

theorem matchP1_spec (h b y e : String)
    (hh : h.toList ≠ [] ∧ ∀ c ∈ h.toList, c ≠ '_')
    (hb : b.toList ≠ [] ∧ ∀ c ∈ b.toList, c ≠ '_')
    (hy : y.toList ≠ [] ∧ ∀ c ∈ y.toList, c ≠ '_')
    (he : e.toList ≠ [] ∧ ∀ c ∈ e.toList, wordChar c = true) :
    matchP1 ((h ++ "_" ++ b ++ "_" ++ y ++ "." ++ e).toList) = some (h, b, y, e) := by
  have hlist : (h ++ "_" ++ b ++ "_" ++ y ++ "." ++ e).toList
      = h.toList ++ '_' :: (b.toList ++ '_' :: (y.toList ++ '.' :: e.toList)) := by
    simp only [String.toList, String.data_append, List.append_assoc]
    rfl
  rw [hlist]
  simp only [matchP1, splitField_spec _ _ hh.1 hh.2, splitField_spec _ _ hb.1 hb.2,
    p34_spec _ _ hy.1 hy.2 he.1 he.2, asString_toList]

/-- C9 counterexample: the filename "A_B_2022.csv!" matches neither the
single-year shape `holder_bank_year.ext` nor the two-year shape (its
extension is not made of word characters), yet `get_file_info` — which
uses `re.match`, matching only at the start of the string — returns the
fields of the matching prefix rather than failing, and reassembling those
fields does not reproduce the original filename. -/
theorem get_file_info_prefix_cex :
    isSingleYearShape "A_B_2022.csv!" = false ∧
    isTwoYearShape "A_B_2022.csv!" = false ∧
    get_file_info "A_B_2022.csv!" = .ok (.single "A" "B" "2022" "csv") ∧
    reassemble (FileInfo.single "A" "B" "2022" "csv") ≠ "A_B_2022.csv!" :=
  ⟨rfl, rfl, rfl, by decide⟩

/-- C9 (amended): for every filename that is exactly of the single-year
form `holder_bank_year.ext` — holder, bank and year nonempty and
underscore-free, extension nonempty word characters — `get_file_info`
extracts exactly (holder, bank, year, ext), so reassembling the fields
reproduces the original filename; and the parser fails with an error
precisely on filenames on which neither regex matches a prefix (rather
than on filenames merely failing to match in full). -/
theorem get_file_info_round_trip (h b y e : String)
    (hh : h.toList ≠ [] ∧ ∀ c ∈ h.toList, c ≠ '_')
    (hb : b.toList ≠ [] ∧ ∀ c ∈ b.toList, c ≠ '_')
    (hy : y.toList ≠ [] ∧ ∀ c ∈ y.toList, c ≠ '_')
    (he : e.toList ≠ [] ∧ ∀ c ∈ e.toList, wordChar c = true) :
    get_file_info (h ++ "_" ++ b ++ "_" ++ y ++ "." ++ e)
      = .ok (.single h b y e) ∧
    reassemble (FileInfo.single h b y e) = h ++ "_" ++ b ++ "_" ++ y ++ "." ++ e ∧
    (∀ f : String, matchP1 f.toList = none → matchP2 f.toList = none →
      get_file_info f
        = .error "The file name does not match either of the expected patterns.") := by
  refine ⟨?_, rfl, ?_⟩
  · simp only [get_file_info, matchP1_spec h b y e hh hb hy he]
  · intro f h1 h2
    simp only [get_file_info, h1, h2]

/-- C9 amended witness: the round trip at the concrete filename
TS_BB_2022.csv. -/
theorem get_file_info_round_trip_witness :
    get_file_info "TS_BB_2022.csv" = .ok (.single "TS" "BB" "2022" "csv") ∧
    reassemble (FileInfo.single "TS" "BB" "2022" "csv") = "TS_BB_2022.csv" :=
  ⟨(get_file_info_round_trip "TS" "BB" "2022" "csv"
      (by decide) (by decide) (by decide) (by decide)).1,
    (get_file_info_round_trip "TS" "BB" "2022" "csv"
      (by decide) (by decide) (by decide) (by decide)).2.1⟩
